import Mathlib

/-
Verification development for the SCOW memory-object and kernel-dispatch
subsystem (src/mem_object.c, src/kernel.c, src/err_codes.h, src/timer.h,
src/kernel.h, src/inc/mem_object.h).

Shallow embedding conventions:
  - C pointers that may be NULL are modelled as Option values (none = NULL);
    non-null host addresses are modelled as Nat.
  - Results of calls into the OpenCL runtime (return codes, mapped pointers,
    resolved row pitches, profiled times, event values, device limits) are
    supplied as explicit oracle parameters, since the runtime is an external
    collaborator.
  - Every operation also returns the list of device operations it enqueued,
    so that claims about operations issuing no device work are statable.
  - Undefined behaviour (null dereference, modulo by zero) is modelled by an
    Option-valued result, with none marking the undefined execution.
  - cl_double profiling times are modelled as Int; size_t arithmetic is done
    mod 2 ^ 64 where the source multiplies sizes.
-/

namespace SCOW

/-! Error codes, from src/err_codes.h.  ret_code is cl_int. -/

abbrev RetCode := Int

def CL_SUCCESS : RetCode := 0

/-- INVALID_ARG_GIVEN_BASE is 100. -/
def INVALID_BLOCKING_FLAG : RetCode := 101

def INVALID_BUFFER_SIZE : RetCode := 102

def INVALID_BUFFER_GIVEN : RetCode := 103

def INVALID_ARG_TYPE : RetCode := 105

def VOID_ARG_GIVEN : RetCode := 106

/-- OPENCL_RELATED_ERRORS_BASE is 300. -/
def DISTINCT_MEM_OBJECTS : RetCode := 313

def DISTINCT_MEM_FLAGS : RetCode := 314

def MEM_OBJ_NOT_MAPPED : RetCode := 315

def INVALID_LOCAL_WG_SIZE : RetCode := 318

def GLOBAL_NOT_MULTIPLE_TO_LOCAL : RetCode := 320

def INVALID_ND_DIMENSIONALITY : RetCode := 321

/-- PARENT_CHILD_ERRORS_BASE is 400. -/
def WRONG_PARENT_OBJECT : RetCode := 401

/-- OBJECT_IN_USE_BASE is 500. -/
def BUFFER_IN_USE : RetCode := 502

/-- ACCESSORS_BASE is 600. -/
def CALLING_UNDEF_ACCESSOR : RetCode := 602

/-! Enumerations from src/inc/mem_object.h and src/timer.h. -/

inductive MEM_OBJECT_TYPE where
  | BUFFER
  | IMAGE
deriving DecidableEq, Repr

inductive MEM_OBJECT_PATERNITY where
  | PARENT_OBJECT
  | CHILD_OBJECT
deriving DecidableEq, Repr

inductive TIME_STUDY_MODE where
  | MEASURE
  | DONT_MEASURE
deriving DecidableEq, Repr

/-- Device-side operations a Memory Object function can enqueue or request
from the OpenCL runtime. -/
inductive DeviceOp where
  | enqueueMapBuffer
  | enqueueMapImage
  | enqueueUnmapMemObject
  | enqueueWriteBuffer
  | enqueueReadBuffer
  | enqueueWriteImage
  | enqueueReadImage
  | enqueueCopyBuffer
  | enqueueCopyImage
  | createSubBuffer
deriving DecidableEq, Repr

/-- The host-visible state of a scow_Mem_Object (src/inc/mem_object.h).
The error cell and timer substructures are inlined as the fields they carry
that the claims mention: errorLast models error->Set_Last_Code storage,
timerCurrent and timerTotal model timer->current_time_device and
timer->total_time_device.  parent_thread is the identity of the owning
Steel Thread (Execution Context). -/
structure MemObject where
  obj_mem_type : MEM_OBJECT_TYPE
  obj_paternity : MEM_OBJECT_PATERNITY
  parent_thread : Nat
  mem_flags : Nat
  size : Nat
  width : Nat
  height : Nat
  row_pitch : Nat
  origin : Nat
  host_ptr : Option Nat
  mapped_to_region : Option Nat
  errorLast : RetCode
  timerCurrent : Int
  timerTotal : Int
deriving DecidableEq, Repr

/-- Result of a Map call: the returned host pointer (none = NULL), the state
of the object after the call (none when a NULL self was passed), and the
device operations issued. -/
structure MapOutcome where
  ret : Option Nat
  self : Option MemObject
  devOps : List DeviceOp
deriving DecidableEq, Repr

/-- Buffer_Map, src/mem_object.c lines 274-338.  Oracle parameters devPtr and
devRet are the pointer and status produced by clEnqueueMapBuffer, devTime the
profiled duration read by Gather_Time_uS.  Event plumbing (evt_to_generate,
clReleaseEvent) and the queue choice carry no modelled state and are elided. -/
def Buffer_Map (self? : Option MemObject) (blocking_map : Nat) (map_flags : Nat)
    (time_mode : TIME_STUDY_MODE) (devPtr : Option Nat) (devRet : RetCode)
    (devTime : Int) : MapOutcome :=
  let _ := map_flags
  match self? with
  | none => ⟨none, none, []⟩
  | some self =>
    if blocking_map > 1 then
      ⟨none, some { self with errorLast := INVALID_BLOCKING_FLAG }, []⟩
    else if self.mapped_to_region ≠ none then
      ⟨none, some { self with errorLast := BUFFER_IN_USE }, []⟩
    else
      let self1 := { self with mapped_to_region := devPtr }
      if devRet ≠ CL_SUCCESS then
        ⟨none, some { self1 with errorLast := devRet }, [DeviceOp.enqueueMapBuffer]⟩
      else
        match time_mode with
        | .MEASURE =>
          let self2 := { self1 with timerCurrent := devTime }
          ⟨devPtr, some { self2 with timerTotal := self2.timerTotal + devTime },
            [DeviceOp.enqueueMapBuffer]⟩
        | .DONT_MEASURE => ⟨devPtr, some self1, [DeviceOp.enqueueMapBuffer]⟩

/-- Image_Map, src/mem_object.c lines 363-431.  clEnqueueMapImage additionally
writes the resolved row pitch through a pointer to self->row_pitch; oracle
parameter devPitch supplies that value. -/
def Image_Map (self? : Option MemObject) (blocking_map : Nat) (map_flags : Nat)
    (time_mode : TIME_STUDY_MODE) (devPtr : Option Nat) (devPitch : Nat)
    (devRet : RetCode) (devTime : Int) : MapOutcome :=
  let _ := map_flags
  match self? with
  | none => ⟨none, none, []⟩
  | some self =>
    if blocking_map > 1 then
      ⟨none, some { self with errorLast := INVALID_BLOCKING_FLAG }, []⟩
    else if self.mapped_to_region ≠ none then
      ⟨none, some { self with errorLast := BUFFER_IN_USE }, []⟩
    else
      let self1 := { self with mapped_to_region := devPtr, row_pitch := devPitch }
      if devRet ≠ CL_SUCCESS then
        ⟨none, some { self1 with errorLast := devRet }, [DeviceOp.enqueueMapImage]⟩
      else
        match time_mode with
        | .MEASURE =>
          let self2 := { self1 with timerCurrent := devTime }
          ⟨devPtr, some { self2 with timerTotal := self2.timerTotal + devTime },
            [DeviceOp.enqueueMapImage]⟩
        | .DONT_MEASURE => ⟨devPtr, some self1, [DeviceOp.enqueueMapImage]⟩

/-- Result of an Unmap call: the returned status, the state of the object
after the call (none when a NULL self was passed), the contents of the
caller-supplied mapped-pointer reference after the call (outer none = the
reference itself was NULL), and the device operations issued. -/
structure UnmapOutcome where
  ret : RetCode
  self : Option MemObject
  p_mapped_ptr : Option (Option Nat)
  devOps : List DeviceOp
deriving DecidableEq, Repr

/-- Mem_Object_Unmap, src/mem_object.c lines 452-526.  p_mapped_ptr models the
void** argument: outer none = NULL reference, some v = a reference currently
holding pointer v (inner none = it holds NULL).  devRet is the status of
clEnqueueUnmapMemObject, devTime the profiled duration.  The blocking wait in
the switch default branch is unreachable for the two declared
TIME_STUDY_MODE members and is not modelled; event plumbing is elided. -/
def Mem_Object_Unmap (self? : Option MemObject) (blocking_map : Nat)
    (p_mapped_ptr : Option (Option Nat)) (time_mode : TIME_STUDY_MODE)
    (devRet : RetCode) (devTime : Int) : UnmapOutcome :=
  let _ := blocking_map
  match self? with
  | none => ⟨INVALID_BUFFER_GIVEN, none, p_mapped_ptr, []⟩
  | some self =>
    match self.mapped_to_region with
    | none => ⟨MEM_OBJ_NOT_MAPPED, some self, p_mapped_ptr, []⟩
    | some mapped =>
      let earlyErr : Option RetCode :=
        match p_mapped_ptr with
        | none => none
        | some none => some INVALID_BUFFER_GIVEN
        | some (some q) => if mapped ≠ q then some WRONG_PARENT_OBJECT else none
      match earlyErr with
      | some e => ⟨e, some self, p_mapped_ptr, []⟩
      | none =>
        if devRet ≠ CL_SUCCESS then
          ⟨devRet, some self, p_mapped_ptr, [DeviceOp.enqueueUnmapMemObject]⟩
        else
          let self1 := { self with mapped_to_region := none, row_pitch := 0 }
          let cell : Option (Option Nat) :=
            match p_mapped_ptr with
            | none => none
            | some _ => some none
          match time_mode with
          | .MEASURE =>
            let self2 := { self1 with timerCurrent := devTime }
            ⟨CL_SUCCESS, some { self2 with timerTotal := self2.timerTotal + devTime },
              cell, [DeviceOp.enqueueUnmapMemObject]⟩
          | .DONT_MEASURE =>
            ⟨CL_SUCCESS, some self1, cell, [DeviceOp.enqueueUnmapMemObject]⟩

/-- Result of a Copy call: the returned status, the state of the source
object after the call (none when a NULL self was passed; the destination
struct is never written by Copy on the host side), and the device operations
issued. -/
structure CopyOutcome where
  ret : RetCode
  self : Option MemObject
  devOps : List DeviceOp
deriving DecidableEq, Repr

/-- Buffer_Copy, src/mem_object.c lines 833-895.  selfAddr and destAddr are
the pointer values of the two handles, used for the self == dest pointer
comparison; self? and dest? are the objects they reference (none = NULL
handle).  devRet is the status of clEnqueueCopyBuffer, devTime the profiled
duration. -/
def Buffer_Copy (selfAddr destAddr : Nat) (self? dest? : Option MemObject)
    (blocking_flag : Nat) (time_mode : TIME_STUDY_MODE) (devRet : RetCode)
    (devTime : Int) : CopyOutcome :=
  let _ := blocking_flag
  match self? with
  | none => ⟨INVALID_BUFFER_GIVEN, none, []⟩
  | some self =>
    match dest? with
    | none => ⟨INVALID_BUFFER_GIVEN, some self, []⟩
    | some dest =>
      if self.obj_mem_type ≠ dest.obj_mem_type then
        ⟨DISTINCT_MEM_OBJECTS, some self, []⟩
      else if self.size > dest.size then
        ⟨INVALID_BUFFER_SIZE, some self, []⟩
      else if selfAddr = destAddr then
        ⟨CL_SUCCESS, some { self with timerCurrent := 0 }, []⟩
      else
        if devRet ≠ CL_SUCCESS then
          ⟨devRet, some self, [DeviceOp.enqueueCopyBuffer]⟩
        else
          match time_mode with
          | .MEASURE =>
            let self1 := { self with timerCurrent := devTime }
            ⟨CL_SUCCESS, some { self1 with timerTotal := self1.timerTotal + devTime },
              [DeviceOp.enqueueCopyBuffer]⟩
          | .DONT_MEASURE => ⟨CL_SUCCESS, some self, [DeviceOp.enqueueCopyBuffer]⟩

/-- Image_Copy, src/mem_object.c lines 916-987.  The function dereferences
self in the region initializer and both self and dest in the type comparison
BEFORE its OCL_CHECK_EXISTENCE null checks (which only come at lines
949-950), so a NULL self or dest is dereferenced: that undefined execution is
modelled as the result none.  On the self == dest path the source resets
current_time_device to 0 and then adds that 0 into total_time_device. -/
def Image_Copy (selfAddr destAddr : Nat) (self? dest? : Option MemObject)
    (blocking_flag : Nat) (time_mode : TIME_STUDY_MODE) (devRet : RetCode)
    (devTime : Int) : Option CopyOutcome :=
  let _ := blocking_flag
  match self? with
  | none => none
  | some self =>
    match dest? with
    | none => none
    | some dest =>
      if self.obj_mem_type ≠ dest.obj_mem_type then
        some ⟨DISTINCT_MEM_OBJECTS, some self, []⟩
      else if selfAddr = destAddr then
        let self1 := { self with timerCurrent := 0 }
        some ⟨CL_SUCCESS, some { self1 with timerTotal := self1.timerTotal + 0 }, []⟩
      else if self.row_pitch > dest.row_pitch ∨ self.height > dest.height ∨
          self.width > dest.width then
        some ⟨INVALID_BUFFER_SIZE, some self, []⟩
      else
        if devRet ≠ CL_SUCCESS then
          some ⟨devRet, some self, [DeviceOp.enqueueCopyImage]⟩
        else
          match time_mode with
          | .MEASURE =>
            let self1 := { self with timerCurrent := devTime }
            some ⟨CL_SUCCESS, some { self1 with timerTotal := self1.timerTotal + devTime },
              [DeviceOp.enqueueCopyImage]⟩
          | .DONT_MEASURE => some ⟨CL_SUCCESS, some self, [DeviceOp.enqueueCopyImage]⟩

/-- Result of a Swap call: the returned status, the contents of the two
handle variables after the call (outer none = the scow_Mem_Object** argument
was NULL, inner none = the variable holds a NULL handle), and the device
operations issued. -/
structure SwapOutcome where
  ret : RetCode
  p_self : Option (Option Nat)
  p_dest : Option (Option Nat)
  devOps : List DeviceOp
deriving DecidableEq, Repr

/-- Mem_Object_Swap, src/mem_object.c lines 1005-1037.  lookup gives the
object stored at each non-null handle address.  The handle variables are
modelled as in SwapOutcome.  The source checks, in order: self, dest, *self,
*dest for NULL, then type, then flags, then size, and finally exchanges the
two pointers with no device-side operation. -/
def Mem_Object_Swap (lookup : Nat → MemObject) :
    Option (Option Nat) → Option (Option Nat) → SwapOutcome
  | none, d => ⟨INVALID_BUFFER_GIVEN, none, d, []⟩
  | some s, none => ⟨INVALID_BUFFER_GIVEN, some s, none, []⟩
  | some none, some d => ⟨INVALID_BUFFER_GIVEN, some none, some d, []⟩
  | some (some a), some none => ⟨INVALID_BUFFER_GIVEN, some (some a), some none, []⟩
  | some (some a), some (some b) =>
    if (lookup a).obj_mem_type ≠ (lookup b).obj_mem_type then
      ⟨DISTINCT_MEM_OBJECTS, some (some a), some (some b), []⟩
    else if (lookup a).mem_flags ≠ (lookup b).mem_flags then
      ⟨DISTINCT_MEM_FLAGS, some (some a), some (some b), []⟩
    else if (lookup a).size ≠ (lookup b).size then
      ⟨INVALID_BUFFER_SIZE, some (some a), some (some b), []⟩
    else
      ⟨CL_SUCCESS, some (some b), some (some a), []⟩

/-- Result of a Make_Child call: the state of the parent after the call (its
error cell may be written; none when a NULL self was passed), the created
child object (none = VOID_MEM_OBJ_PTR returned), and the device operations
issued. -/
structure SubBufferOutcome where
  self : Option MemObject
  child : Option MemObject
  devOps : List DeviceOp
deriving DecidableEq, Repr

/-- Buffer_Make_Sub_Buffer, src/mem_object.c lines 1121-1188.  originArg and
sizeArg are the cl_buffer_region fields of buffer_create_info; allocOk models
whether the host-side calloc for the child succeeds; createRet is the status
of clCreateSubBuffer.  The child is calloc-zeroed and then given kind BUFFER,
paternity CHILD_OBJECT, the requested flags, the parent Steel Thread, fresh
error and timer cells, its origin and size from the descriptor, and a host
mirror of parent mirror plus origin when the parent has one. -/
def Buffer_Make_Sub_Buffer (self? : Option MemObject) (flags : Nat)
    (originArg sizeArg : Nat) (allocOk : Bool) (createRet : RetCode) :
    SubBufferOutcome :=
  match self? with
  | none => ⟨none, none, []⟩
  | some self =>
    if self.obj_mem_type ≠ MEM_OBJECT_TYPE.BUFFER then
      ⟨some { self with errorLast := INVALID_ARG_TYPE }, none, []⟩
    else if self.obj_paternity ≠ MEM_OBJECT_PATERNITY.PARENT_OBJECT then
      ⟨some { self with errorLast := WRONG_PARENT_OBJECT }, none, []⟩
    else if allocOk = false then
      ⟨some self, none, []⟩
    else if createRet ≠ CL_SUCCESS then
      ⟨some self, none, [DeviceOp.createSubBuffer]⟩
    else
      let child : MemObject :=
        { obj_mem_type := .BUFFER
          obj_paternity := .CHILD_OBJECT
          parent_thread := self.parent_thread
          mem_flags := flags
          size := sizeArg
          width := 0
          height := 0
          row_pitch := 0
          origin := originArg
          host_ptr :=
            match self.host_ptr with
            | some hp => some (hp + originArg)
            | none => none
          mapped_to_region := none
          errorLast := CL_SUCCESS
          timerCurrent := 0
          timerTotal := 0 }
      ⟨some self, some child, [DeviceOp.createSubBuffer]⟩

/-- A root Buffer object used as a concrete witness input; it is currently
mapped at host address 7. -/
def mBufEx : MemObject :=
  { obj_mem_type := .BUFFER
    obj_paternity := .PARENT_OBJECT
    parent_thread := 1
    mem_flags := 0
    size := 128
    width := 0
    height := 0
    row_pitch := 0
    origin := 0
    host_ptr := none
    mapped_to_region := some 7
    errorLast := CL_SUCCESS
    timerCurrent := 0
    timerTotal := 0 }

/-- An unmapped 128-byte root Buffer used as a concrete witness input. -/
def bufA : MemObject := { mBufEx with mapped_to_region := none }

/-- A second unmapped root Buffer with the same kind, flags and size as bufA
but a different host mirror, used as a concrete swap partner. -/
def bufB : MemObject := { bufA with host_ptr := some 50 }

/-- An unmapped 64-byte root Buffer used as a copy destination that is too
small. -/
def bufSmall : MemObject := { bufA with size := 64 }

/-- An unmapped root Image used as a concrete witness input. -/
def imgEx : MemObject :=
  { bufA with obj_mem_type := .IMAGE, width := 4, height := 4, size := 0 }

/-- A concrete handle environment: address 2 holds bufB, every other address
holds bufA. -/
def lookEx : Nat → MemObject := fun n => if n = 2 then bufB else bufA

/-! Kernel geometry and dispatch, from src/kernel.c and src/kernel.h. -/

/-- MAX_NUM_DIMENSIONS from src/kernel.h. -/
def MAX_NUM_DIMENSIONS : Nat := 3

/-- Modulus of size_t arithmetic on the 64-bit target. -/
def SIZE_T_MOD : Nat := 2 ^ 64

/-- The ND-range geometry stored in a scow_Kernel: Dimensionality and the two
length-3 size_t arrays Global_Work_Size and Local_Work_Size. -/
structure KernelGeom where
  Dimensionality : Nat
  Global_Work_Size : List Nat
  Local_Work_Size : List Nat
deriving DecidableEq, Repr

/-- In-bounds C array store: writes value v at index i, leaving the list
unchanged when i is out of range (the source only writes indices below the
declared length 3). -/
def listSet : List Nat → Nat → Nat → List Nat
  | [], _, _ => []
  | _ :: t, 0, v => v :: t
  | h :: t, n + 1, v => h :: listSet t n v

/-- Running product of the first j+1 local sizes, as the source accumulates
it in the size_t variable curr_local_wg_size. -/
def prodLocal (l : Nat → Nat) : Nat → Nat
  | 0 => l 0
  | j + 1 => prodLocal l j * l (j + 1) % SIZE_T_MOD

/-- The for-loop of Kernel_Set_ND_Sizes, src/kernel.c lines 222-266, iterating
dimension index i with rem iterations remaining (the source condition
i < Dimensionality corresponds to rem > 0).  curr is curr_local_wg_size;
it is uninitialised in the source until the i = 0 iteration assigns it.
When a local size array is given, the source computes
global_wg_size[i] % local_wg_size[i] whenever the array pointer is non-null,
even when local_wg_size[i] is zero; that modulo by zero is undefined
behaviour, modelled as the result none. -/
def Kernel_Set_ND_Sizes_loop (global : Nat → Nat) (localWG : Option (Nat → Nat))
    (maxWG : Nat) : Nat → Nat → Nat → KernelGeom → Option (RetCode × KernelGeom)
  | 0, _, _, g => some (CL_SUCCESS, g)
  | rem + 1, i, curr, g =>
    match localWG with
    | some l =>
      let curr1 := if i = 0 then l i else curr * l i % SIZE_T_MOD
      if curr1 ≤ maxWG then
        let g1 := { g with Local_Work_Size := listSet g.Local_Work_Size i (l i) }
        if l i = 0 then
          none
        else if global i % l i = 0 then
          Kernel_Set_ND_Sizes_loop global localWG maxWG rem (i + 1) curr1
            { g1 with Global_Work_Size := listSet g1.Global_Work_Size i (global i) }
        else
          some (GLOBAL_NOT_MULTIPLE_TO_LOCAL, g1)
      else
        some (INVALID_LOCAL_WG_SIZE, g)
    | none =>
      Kernel_Set_ND_Sizes_loop global localWG maxWG rem (i + 1) curr
        { g with Global_Work_Size := listSet g.Global_Work_Size i (global i) }

/-- Kernel_Set_ND_Sizes, src/kernel.c lines 192-269.  global? models the
global_wg_size pointer (none = NULL, checked by OCL_CHECK_EXISTENCE), localWG
the optional local_wg_size pointer.  wgInfoRet and maxWG are the status and
value produced by clGetKernelWorkGroupInfo.  Note the source stores
self->Dimensionality = dimensionality BEFORE the device query and the
validation loop, and the loop writes each validated size into the stored
arrays as it goes. -/
def Kernel_Set_ND_Sizes (g : KernelGeom) (dimensionality : Nat)
    (global? : Option (Nat → Nat)) (localWG : Option (Nat → Nat))
    (wgInfoRet : RetCode) (maxWG : Nat) : Option (RetCode × KernelGeom) :=
  match global? with
  | none => some (INVALID_BUFFER_GIVEN, g)
  | some global =>
    if dimensionality ≤ MAX_NUM_DIMENSIONS then
      let g1 := { g with Dimensionality := dimensionality }
      if wgInfoRet ≠ CL_SUCCESS then
        some (wgInfoRet, g1)
      else
        Kernel_Set_ND_Sizes_loop global localWG maxWG dimensionality 0 0 g1
    else
      some (INVALID_ND_DIMENSIONALITY, g)

/-- A kernel geometry with previously stored sizes, used as a concrete
witness and counterexample input. -/
def gEx : KernelGeom :=
  { Dimensionality := 3
    Global_Work_Size := [8, 8, 8]
    Local_Work_Size := [2, 2, 2] }

/-- The dispatch-related state of a scow_Kernel (src/kernel.h): stored
geometry, argument count, the event-priority flag (false = internal, true =
external), the internal completion event value, the stored pointer to the
external event variable, the last execution status, and the timer fields
current_time_device, total_time_device and num_calls_device. -/
structure KernelState where
  geom : KernelGeom
  num_args : Nat
  evt_check_priority : Bool
  internal_event : Nat
  p_external_event : Option Nat
  exec_status : Int
  timerCurrent : Int
  timerTotal : Int
  num_calls_device : Nat
deriving DecidableEq, Repr

/-- Host-side OpenCL calls a kernel function issues; waitForEvents is the
only blocking one. -/
inductive HostOp where
  | setKernelArg (idx : Nat)
  | enqueueNDRangeKernel (localGiven : Bool)
  | waitForEvents (evt : Nat)
  | getEventInfo (evt : Nat)
deriving DecidableEq, Repr

/-- Result of Kernel_ND_Range: status, new kernel state, new contents of the
external event variables (address to event value), and the trace of host
OpenCL calls. -/
structure NDRangeOutcome where
  ret : RetCode
  kernel : KernelState
  env : Nat → Nat
  ops : List HostOp

/-- Kernel_ND_Range, src/kernel.c lines 294-359.  generated_evt models the
cl_event* argument (some addr = a caller-supplied external event variable);
env maps external event-variable addresses to their event values.  newEvt is
the completion event produced by clEnqueueNDRangeKernel on success,
enqueueRet its status, runTime the duration read by Gather_Time_uS.  The
source selects the event slot and priority flag before enqueueing, passes a
NULL local size array when every stored local size in range is zero, waits
on the event whenever the time mode is not DONT_MEASURE, and accumulates
time and the call counter only in MEASURE mode. -/
def Kernel_ND_Range (k : KernelState) (env : Nat → Nat) (generated_evt : Option Nat)
    (newEvt : Nat) (enqueueRet : RetCode) (runTime : Int) (tm : TIME_STUDY_MODE) :
    NDRangeOutcome :=
  let k1 := match generated_evt with
    | none => { k with evt_check_priority := false }
    | some addr => { k with evt_check_priority := true, p_external_event := some addr }
  let haveLocal := (List.range k1.geom.Dimensionality).any
      (fun i => k1.geom.Local_Work_Size.getD i 0 != 0)
  if enqueueRet ≠ CL_SUCCESS then
    ⟨enqueueRet, k1, env, [HostOp.enqueueNDRangeKernel haveLocal]⟩
  else
    let upd : KernelState × (Nat → Nat) :=
      match generated_evt with
      | none => ({ k1 with internal_event := newEvt }, env)
      | some addr => (k1, Function.update env addr newEvt)
    match tm with
    | .MEASURE =>
      let k2 := { upd.1 with timerCurrent := runTime }
      let k3 := { k2 with timerTotal := k2.timerTotal + runTime }
      ⟨CL_SUCCESS, { k3 with num_calls_device := k3.num_calls_device + 1 }, upd.2,
        [HostOp.enqueueNDRangeKernel haveLocal, HostOp.waitForEvents newEvt]⟩
    | .DONT_MEASURE =>
      ⟨CL_SUCCESS, upd.1, upd.2, [HostOp.enqueueNDRangeKernel haveLocal]⟩

/-- Result of Kernel_Check_Status: status, kernel state after the call (none
when a NULL self was passed), and the trace of host OpenCL calls. -/
structure CheckOutcome where
  ret : RetCode
  kernel : Option KernelState
  ops : List HostOp

/-- Kernel_Check_Status, src/kernel.c lines 464-476.  Reads the event chosen
by the priority flag — the value held by the stored external event variable
under external priority, the internal event otherwise — and queries its
execution status with clGetEventInfo (queryRet, statusVal being the query
result), writing the status into exec_status.  Dereferencing a NULL
p_external_event under external priority would be undefined behaviour,
modelled as none; no blocking call is issued. -/
def Kernel_Check_Status (k? : Option KernelState) (env : Nat → Nat)
    (queryRet : RetCode) (statusVal : Int) : Option CheckOutcome :=
  match k? with
  | none => some ⟨VOID_ARG_GIVEN, none, []⟩
  | some k =>
    let evt? : Option Nat :=
      if k.evt_check_priority then
        match k.p_external_event with
        | none => none
        | some addr => some (env addr)
      else
        some k.internal_event
    match evt? with
    | none => none
    | some evtVal =>
      some ⟨queryRet,
        some (if queryRet = CL_SUCCESS then { k with exec_status := statusVal } else k),
        [HostOp.getEventInfo evtVal]⟩

/-- The argument-binding loop of Kernel_Launch, src/kernel.c lines 399-410:
binds arguments i, i+1, ... with rem bindings remaining, stopping at the
first clSetKernelArg failure (setArgRet gives each binding status) and
returning its status together with the trace of bindings attempted. -/
def Kernel_Launch_bind (setArgRet : Nat → RetCode) :
    Nat → Nat → RetCode × List HostOp
  | 0, _ => (CL_SUCCESS, [])
  | rem + 1, i =>
    if setArgRet i ≠ CL_SUCCESS then
      (setArgRet i, [HostOp.setKernelArg i])
    else
      let rest := Kernel_Launch_bind setArgRet rem (i + 1)
      (rest.1, HostOp.setKernelArg i :: rest.2)

/-- Result of Kernel_Launch: as NDRangeOutcome, with kernel = none when a
NULL self was passed. -/
structure LaunchOutcome where
  ret : RetCode
  kernel : Option KernelState
  env : Nat → Nat
  ops : List HostOp

/-- Kernel_Launch, src/kernel.c lines 387-416: checks self, binds the
variadic arguments in order up to num_args, aborts on the first binding
failure, and otherwise dispatches through Kernel_ND_Range. -/
def Kernel_Launch (k? : Option KernelState) (env : Nat → Nat)
    (generated_evt : Option Nat) (setArgRet : Nat → RetCode) (newEvt : Nat)
    (enqueueRet : RetCode) (runTime : Int) (tm : TIME_STUDY_MODE) :
    LaunchOutcome :=
  match k? with
  | none => ⟨INVALID_BUFFER_GIVEN, none, env, []⟩
  | some k =>
    let b := Kernel_Launch_bind setArgRet k.num_args 0
    if b.1 ≠ CL_SUCCESS then
      ⟨b.1, some k, env, b.2⟩
    else
      let nd := Kernel_ND_Range k env generated_evt newEvt enqueueRet runTime tm
      ⟨nd.ret, some nd.kernel, nd.env, b.2 ++ nd.ops⟩

/-- A concrete kernel state used as a witness input. -/
def kEx : KernelState :=
  { geom := gEx
    num_args := 2
    evt_check_priority := false
    internal_event := 0
    p_external_event := none
    exec_status := 0
    timerCurrent := 0
    timerTotal := 0
    num_calls_device := 0 }

end SCOW

namespace SCOW

/-- C1: mapping an already-mapped Memory Object (Buffer or Image) fails: the
call returns a NULL pointer, records BUFFER_IN_USE in the error cell, issues
no device operation, and leaves every other field of the object — in
particular the recorded mapped pointer and, for Images, the recorded row
pitch — exactly as the first mapping set it. -/
theorem claim_C1 (m : MemObject) (p : Nat) (hmap : m.mapped_to_region = some p)
    (blocking : Nat) (hb : blocking ≤ 1) (map_flags : Nat) (tm : TIME_STUDY_MODE)
    (devPtrB devPtrI : Option Nat) (devRetB devRetI : RetCode)
    (devTimeB devTimeI : Int) (devPitch : Nat) :
    Buffer_Map (some m) blocking map_flags tm devPtrB devRetB devTimeB =
      ⟨none, some { m with errorLast := BUFFER_IN_USE }, []⟩ ∧
    Image_Map (some m) blocking map_flags tm devPtrI devPitch devRetI devTimeI =
      ⟨none, some { m with errorLast := BUFFER_IN_USE }, []⟩ := by
  have hnb : ¬ blocking > 1 := by omega
  constructor
  · simp [Buffer_Map, hnb, hmap]
  · simp [Image_Map, hnb, hmap]

/-- Witness for C1 at the concrete mapped buffer mBufEx. -/
theorem claim_C1_witness :
    Buffer_Map (some mBufEx) 1 0 TIME_STUDY_MODE.DONT_MEASURE none CL_SUCCESS 0 =
      ⟨none, some { mBufEx with errorLast := BUFFER_IN_USE }, []⟩ ∧
    Image_Map (some mBufEx) 1 0 TIME_STUDY_MODE.DONT_MEASURE none 0 CL_SUCCESS 0 =
      ⟨none, some { mBufEx with errorLast := BUFFER_IN_USE }, []⟩ :=
  claim_C1 mBufEx 7 rfl 1 (by decide) 0 TIME_STUDY_MODE.DONT_MEASURE none none
    CL_SUCCESS CL_SUCCESS 0 0 0

/-- C3: the claim says every Memory Object operation validates its handle
arguments before dereferencing them.  Buffer_Copy does (a NULL self or dest
yields INVALID_BUFFER_GIVEN with no device operation), but Image_Copy reads
self->width, self->height and the two obj_mem_type fields before its null
checks, so a NULL self or dest handle is dereferenced — modelled as the
undefined result none.  The claim is right about the intent and the code is
wrong at Image_Copy. -/
theorem claim_C3 :
    Image_Copy 1 2 (some imgEx) none 1 TIME_STUDY_MODE.DONT_MEASURE CL_SUCCESS 0 =
      none ∧
    Image_Copy 1 2 none (some imgEx) 1 TIME_STUDY_MODE.DONT_MEASURE CL_SUCCESS 0 =
      none ∧
    Buffer_Copy 1 2 none (some bufA) 1 TIME_STUDY_MODE.DONT_MEASURE CL_SUCCESS 0 =
      ⟨INVALID_BUFFER_GIVEN, none, []⟩ ∧
    Buffer_Copy 1 2 (some bufA) none 1 TIME_STUDY_MODE.DONT_MEASURE CL_SUCCESS 0 =
      ⟨INVALID_BUFFER_GIVEN, some bufA, []⟩ := by
  decide

/-- C4: swapping two handles whose objects have identical kind, identical
allocation flags and identical size succeeds, exchanges exactly the two
handle variables with zero device operations, and doing it again restores
the original assignment; when kind, flags or size differ the call fails with
DISTINCT_MEM_OBJECTS, DISTINCT_MEM_FLAGS or INVALID_BUFFER_SIZE respectively,
checked in that order, and exchanges nothing. -/
theorem claim_C4 (lookup : Nat → MemObject) (a b : Nat) :
    ((lookup a).obj_mem_type = (lookup b).obj_mem_type →
     (lookup a).mem_flags = (lookup b).mem_flags →
     (lookup a).size = (lookup b).size →
      Mem_Object_Swap lookup (some (some a)) (some (some b)) =
        ⟨CL_SUCCESS, some (some b), some (some a), []⟩ ∧
      Mem_Object_Swap lookup (some (some b)) (some (some a)) =
        ⟨CL_SUCCESS, some (some a), some (some b), []⟩) ∧
    ((lookup a).obj_mem_type ≠ (lookup b).obj_mem_type →
      Mem_Object_Swap lookup (some (some a)) (some (some b)) =
        ⟨DISTINCT_MEM_OBJECTS, some (some a), some (some b), []⟩) ∧
    ((lookup a).obj_mem_type = (lookup b).obj_mem_type →
     (lookup a).mem_flags ≠ (lookup b).mem_flags →
      Mem_Object_Swap lookup (some (some a)) (some (some b)) =
        ⟨DISTINCT_MEM_FLAGS, some (some a), some (some b), []⟩) ∧
    ((lookup a).obj_mem_type = (lookup b).obj_mem_type →
     (lookup a).mem_flags = (lookup b).mem_flags →
     (lookup a).size ≠ (lookup b).size →
      Mem_Object_Swap lookup (some (some a)) (some (some b)) =
        ⟨INVALID_BUFFER_SIZE, some (some a), some (some b), []⟩) := by
  refine ⟨fun h1 h2 h3 => ⟨?_, ?_⟩, fun h1 => ?_, fun h1 h2 => ?_, fun h1 h2 h3 => ?_⟩
  · simp [Mem_Object_Swap, h1, h2, h3]
  · simp [Mem_Object_Swap, h1, h2, h3]
  · simp [Mem_Object_Swap, h1]
  · simp [Mem_Object_Swap, h1, h2]
  · simp [Mem_Object_Swap, h1, h2, h3]

/-- Witness for C4: swapping bufA (address 1) and bufB (address 2) twice
restores the original handle assignment with zero device operations. -/
theorem claim_C4_witness :
    Mem_Object_Swap lookEx (some (some 1)) (some (some 2)) =
      ⟨CL_SUCCESS, some (some 2), some (some 1), []⟩ ∧
    Mem_Object_Swap lookEx (some (some 2)) (some (some 1)) =
      ⟨CL_SUCCESS, some (some 1), some (some 2), []⟩ :=
  (claim_C4 lookEx 1 2).1 (by decide) (by decide) (by decide)

/-- C5: Buffer_Copy fails with DISTINCT_MEM_OBJECTS when the kinds differ;
fails with INVALID_BUFFER_SIZE when the source is bigger than the
destination, with no device operation enqueued (zero bytes transferred); and
a self-copy is a no-op that returns CL_SUCCESS, issues no device operation,
and only resets the last-measured device time to zero. -/
theorem claim_C5 (selfAddr destAddr : Nat) (self dest : MemObject) (bf : Nat)
    (tm : TIME_STUDY_MODE) (devRet : RetCode) (devTime : Int) :
    (self.obj_mem_type ≠ dest.obj_mem_type →
      Buffer_Copy selfAddr destAddr (some self) (some dest) bf tm devRet devTime =
        ⟨DISTINCT_MEM_OBJECTS, some self, []⟩) ∧
    (self.obj_mem_type = dest.obj_mem_type → self.size > dest.size →
      Buffer_Copy selfAddr destAddr (some self) (some dest) bf tm devRet devTime =
        ⟨INVALID_BUFFER_SIZE, some self, []⟩) ∧
    (Buffer_Copy selfAddr selfAddr (some self) (some self) bf tm devRet devTime =
      ⟨CL_SUCCESS, some { self with timerCurrent := 0 }, []⟩) := by
  refine ⟨fun h1 => ?_, fun h1 h2 => ?_, ?_⟩
  · simp [Buffer_Copy, h1]
  · simp [Buffer_Copy, h1, h2]
  · simp [Buffer_Copy]

/-- Witness for C5: copying a 128-byte Buffer into a 64-byte Buffer fails
with INVALID_BUFFER_SIZE and zero device operations, and a self-copy of bufA
succeeds while only resetting the current device time. -/
theorem claim_C5_witness :
    Buffer_Copy 1 2 (some bufA) (some bufSmall) 1 TIME_STUDY_MODE.DONT_MEASURE
      CL_SUCCESS 0 = ⟨INVALID_BUFFER_SIZE, some bufA, []⟩ ∧
    Buffer_Copy 1 1 (some bufA) (some bufA) 1 TIME_STUDY_MODE.DONT_MEASURE
      CL_SUCCESS 0 = ⟨CL_SUCCESS, some { bufA with timerCurrent := 0 }, []⟩ :=
  ⟨(claim_C5 1 2 bufA bufSmall 1 TIME_STUDY_MODE.DONT_MEASURE CL_SUCCESS 0).2.1
      (by decide) (by decide),
    (claim_C5 1 1 bufA bufA 1 TIME_STUDY_MODE.DONT_MEASURE CL_SUCCESS 0).2.2⟩

/-- C6 counterexample: the claim says a caller-supplied mapped-pointer
reference whose value differs from the recorded mapped pointer makes Unmap
fail with WRONG_PARENT_OBJECT.  For a reference holding NULL — which differs
from the recorded pointer 7 of mBufEx — the call instead fails with
INVALID_BUFFER_GIVEN (the OCL_CHECK_EXISTENCE on *p_mapped_ptr fires before
the mismatch comparison), refuting the claim as stated. -/
theorem claim_C6_counterexample :
    Mem_Object_Unmap (some mBufEx) 1 (some none) TIME_STUDY_MODE.DONT_MEASURE
      CL_SUCCESS 0 = ⟨INVALID_BUFFER_GIVEN, some mBufEx, some none, []⟩ ∧
    INVALID_BUFFER_GIVEN ≠ WRONG_PARENT_OBJECT := by
  decide

/-- C6 amended: Unmap fails with MEM_OBJ_NOT_MAPPED when no mapping is
outstanding; a caller-supplied reference holding a NON-NULL pointer that
differs from the recorded mapped pointer fails with WRONG_PARENT_OBJECT and
leaves the mapping recorded (a reference holding NULL instead fails with
INVALID_BUFFER_GIVEN, mapping likewise intact); and on success the recorded
mapped pointer is cleared, the row pitch is reset to 0, and the supplied
reference, if any, is set to NULL. -/
theorem claim_C6 (m : MemObject) (blocking : Nat) (tm : TIME_STUDY_MODE)
    (devRet : RetCode) (devTime : Int) :
    (m.mapped_to_region = none → ∀ pp,
      Mem_Object_Unmap (some m) blocking pp tm devRet devTime =
        ⟨MEM_OBJ_NOT_MAPPED, some m, pp, []⟩) ∧
    (∀ p q, m.mapped_to_region = some p → p ≠ q →
      Mem_Object_Unmap (some m) blocking (some (some q)) tm devRet devTime =
        ⟨WRONG_PARENT_OBJECT, some m, some (some q), []⟩) ∧
    (∀ p, m.mapped_to_region = some p →
      Mem_Object_Unmap (some m) blocking (some none) tm devRet devTime =
        ⟨INVALID_BUFFER_GIVEN, some m, some none, []⟩) ∧
    (∀ p pp, m.mapped_to_region = some p → (pp = none ∨ pp = some (some p)) →
      devRet = CL_SUCCESS →
      ∃ m2, (Mem_Object_Unmap (some m) blocking pp tm devRet devTime).ret =
          CL_SUCCESS ∧
        (Mem_Object_Unmap (some m) blocking pp tm devRet devTime).self = some m2 ∧
        m2.mapped_to_region = none ∧ m2.row_pitch = 0 ∧
        (Mem_Object_Unmap (some m) blocking pp tm devRet devTime).p_mapped_ptr =
          (match pp with | none => none | some _ => some none)) := by
  refine ⟨fun h0 pp => ?_, fun p q hm hpq => ?_, fun p hm => ?_,
    fun p pp hm hpp hdev => ?_⟩
  · simp [Mem_Object_Unmap, h0]
  · simp [Mem_Object_Unmap, hm, hpq]
  · simp [Mem_Object_Unmap, hm]
  · subst hdev
    rcases hpp with h | h <;> subst h <;> cases tm <;>
      simp [Mem_Object_Unmap, hm, CL_SUCCESS]

/-- Witness for C6 at concrete inputs: mBufEx is mapped at 7; unmapping with
a mismatching non-null reference 9 fails with WRONG_PARENT_OBJECT; unmapping
bufA, which is not mapped, fails with MEM_OBJ_NOT_MAPPED; and a successful
unmap of mBufEx with the matching reference clears the state. -/
theorem claim_C6_witness :
    Mem_Object_Unmap (some mBufEx) 1 (some (some 9)) TIME_STUDY_MODE.DONT_MEASURE
      CL_SUCCESS 0 = ⟨WRONG_PARENT_OBJECT, some mBufEx, some (some 9), []⟩ ∧
    Mem_Object_Unmap (some bufA) 1 none TIME_STUDY_MODE.DONT_MEASURE CL_SUCCESS 0 =
      ⟨MEM_OBJ_NOT_MAPPED, some bufA, none, []⟩ ∧
    ∃ m2, (Mem_Object_Unmap (some mBufEx) 1 (some (some 7))
        TIME_STUDY_MODE.DONT_MEASURE CL_SUCCESS 0).ret = CL_SUCCESS ∧
      (Mem_Object_Unmap (some mBufEx) 1 (some (some 7))
        TIME_STUDY_MODE.DONT_MEASURE CL_SUCCESS 0).self = some m2 ∧
      m2.mapped_to_region = none ∧ m2.row_pitch = 0 ∧
      (Mem_Object_Unmap (some mBufEx) 1 (some (some 7))
        TIME_STUDY_MODE.DONT_MEASURE CL_SUCCESS 0).p_mapped_ptr = some none :=
  ⟨(claim_C6 mBufEx 1 TIME_STUDY_MODE.DONT_MEASURE CL_SUCCESS 0).2.1 7 9 rfl
      (by decide),
    (claim_C6 bufA 1 TIME_STUDY_MODE.DONT_MEASURE CL_SUCCESS 0).1 rfl none,
    (claim_C6 mBufEx 1 TIME_STUDY_MODE.DONT_MEASURE CL_SUCCESS 0).2.2.2 7
      (some (some 7)) rfl (Or.inr rfl) rfl⟩

/-- C9: Make_Child succeeds only on a Root Buffer.  Called on an Image it
fails with INVALID_ARG_TYPE and returns a NULL handle; called on a child
object it fails with WRONG_PARENT_OBJECT and returns a NULL handle (both
are TypeMismatch-family statuses in the design taxonomy).  On success the
child has kind BUFFER, paternity CHILD_OBJECT, origin and size from the
sub-region descriptor, the parent Execution Context, a host mirror equal to
the parent mirror plus the origin when the parent has one, and its own
mapped-region state, NULL regardless of the parent state. -/
theorem claim_C9 (m : MemObject) (flags originArg sizeArg : Nat)
    (allocOk : Bool) (createRet : RetCode) :
    (m.obj_mem_type = MEM_OBJECT_TYPE.IMAGE →
      Buffer_Make_Sub_Buffer (some m) flags originArg sizeArg allocOk createRet =
        ⟨some { m with errorLast := INVALID_ARG_TYPE }, none, []⟩) ∧
    (m.obj_mem_type = MEM_OBJECT_TYPE.BUFFER →
     m.obj_paternity = MEM_OBJECT_PATERNITY.CHILD_OBJECT →
      Buffer_Make_Sub_Buffer (some m) flags originArg sizeArg allocOk createRet =
        ⟨some { m with errorLast := WRONG_PARENT_OBJECT }, none, []⟩) ∧
    (m.obj_mem_type = MEM_OBJECT_TYPE.BUFFER →
     m.obj_paternity = MEM_OBJECT_PATERNITY.PARENT_OBJECT →
      ∃ c, Buffer_Make_Sub_Buffer (some m) flags originArg sizeArg true CL_SUCCESS =
          ⟨some m, some c, [DeviceOp.createSubBuffer]⟩ ∧
        c.obj_mem_type = MEM_OBJECT_TYPE.BUFFER ∧
        c.obj_paternity = MEM_OBJECT_PATERNITY.CHILD_OBJECT ∧
        c.origin = originArg ∧ c.size = sizeArg ∧
        c.parent_thread = m.parent_thread ∧
        c.host_ptr = (match m.host_ptr with
          | some hp => some (hp + originArg)
          | none => none) ∧
        c.mapped_to_region = none) := by
  refine ⟨fun h1 => ?_, fun h1 h2 => ?_, fun h1 h2 => ?_⟩
  · simp [Buffer_Make_Sub_Buffer, h1]
  · simp [Buffer_Make_Sub_Buffer, h1, h2]
  · refine ⟨{ obj_mem_type := MEM_OBJECT_TYPE.BUFFER
              obj_paternity := MEM_OBJECT_PATERNITY.CHILD_OBJECT
              parent_thread := m.parent_thread
              mem_flags := flags
              size := sizeArg
              width := 0
              height := 0
              row_pitch := 0
              origin := originArg
              host_ptr := match m.host_ptr with
                | some hp => some (hp + originArg)
                | none => none
              mapped_to_region := none
              errorLast := CL_SUCCESS
              timerCurrent := 0
              timerTotal := 0 }, ?_, rfl, rfl, rfl, rfl, rfl, rfl, rfl⟩
    simp [Buffer_Make_Sub_Buffer, h1, h2, CL_SUCCESS]

/-- Witness for C9: making a child on the mapped root buffer mBufEx with a
host mirror of 100 at origin 256 and size 256 yields a child with mirror
356 and no mapping; making a child on the image imgEx fails with
INVALID_ARG_TYPE and a NULL handle. -/
theorem claim_C9_witness :
    Buffer_Make_Sub_Buffer (some imgEx) 0 256 256 true CL_SUCCESS =
      ⟨some { imgEx with errorLast := INVALID_ARG_TYPE }, none, []⟩ ∧
    ∃ c, Buffer_Make_Sub_Buffer (some { mBufEx with host_ptr := some 100 }) 0
        256 256 true CL_SUCCESS = ⟨some { mBufEx with host_ptr := some 100 },
          some c, [DeviceOp.createSubBuffer]⟩ ∧
      c.obj_mem_type = MEM_OBJECT_TYPE.BUFFER ∧
      c.obj_paternity = MEM_OBJECT_PATERNITY.CHILD_OBJECT ∧
      c.origin = 256 ∧ c.size = 256 ∧
      c.parent_thread = ({ mBufEx with host_ptr := some 100 } : MemObject).parent_thread ∧
      c.host_ptr = some 356 ∧
      c.mapped_to_region = none :=
  ⟨(claim_C9 imgEx 0 256 256 true CL_SUCCESS).1 rfl,
    (claim_C9 { mBufEx with host_ptr := some 100 } 0 256 256 true CL_SUCCESS).2.2
      rfl rfl⟩

/-- The validation loop of Kernel_Set_ND_Sizes never writes the stored
Dimensionality: whatever it returns, the resulting geometry has the same
Dimensionality it was given. -/
theorem Kernel_Set_ND_Sizes_loop_dim (global : Nat → Nat)
    (localWG : Option (Nat → Nat)) (maxWG : Nat) :
    ∀ rem i curr g r g2,
      Kernel_Set_ND_Sizes_loop global localWG maxWG rem i curr g = some (r, g2) →
      g2.Dimensionality = g.Dimensionality := by
  cases localWG with
  | none =>
    intro rem
    induction rem with
    | zero =>
      intro i curr g r g2 h
      simp only [Kernel_Set_ND_Sizes_loop, Option.some.injEq, Prod.mk.injEq] at h
      rw [← h.2]
    | succ rem ih =>
      intro i curr g r g2 h
      simp only [Kernel_Set_ND_Sizes_loop] at h
      have hrec := ih (i + 1) curr _ r g2 h
      exact hrec
  | some l =>
    intro rem
    induction rem with
    | zero =>
      intro i curr g r g2 h
      simp only [Kernel_Set_ND_Sizes_loop, Option.some.injEq, Prod.mk.injEq] at h
      rw [← h.2]
    | succ rem ih =>
      intro i curr g r g2 h
      simp only [Kernel_Set_ND_Sizes_loop] at h
      split_ifs at h
      all_goals
        first
          | exact Option.noConfusion h
          | (simp only [Option.some.injEq, Prod.mk.injEq] at h
             rw [← h.2])
          | (have hrec := ih (i + 1) _ _ r g2 h
             exact hrec)

/-- If every dimension before iFail passes both the local-size and the
divisibility checks, the running products stay within maxWG up to iFail, and
dimension iFail has a non-zero local size that does not divide its global
size, then the loop returns GLOBAL_NOT_MULTIPLE_TO_LOCAL (leaving the
Dimensionality it was given). -/
theorem Kernel_Set_ND_Sizes_loop_fail (global l : Nat → Nat) (maxWG iFail : Nat)
    (hpre : ∀ j, j < iFail → l j ≠ 0 ∧ global j % l j = 0)
    (hprod : ∀ j, j ≤ iFail → prodLocal l j ≤ maxWG)
    (hl : l iFail ≠ 0) (hg : global iFail % l iFail ≠ 0) :
    ∀ rem i curr g, i ≤ iFail → iFail < i + rem →
      (i = 0 ∨ curr = prodLocal l (i - 1)) →
      ∃ g2, Kernel_Set_ND_Sizes_loop global (some l) maxWG rem i curr g =
          some (GLOBAL_NOT_MULTIPLE_TO_LOCAL, g2) ∧
        g2.Dimensionality = g.Dimensionality := by
  intro rem
  induction rem with
  | zero =>
    intro i curr g h1 h2 _
    omega
  | succ rem ih =>
    intro i curr g h1 h2 hcurr
    have hcurr1 : (if i = 0 then l i else curr * l i % SIZE_T_MOD) =
        prodLocal l i := by
      rcases Nat.eq_zero_or_pos i with h0 | hpos
      · subst h0
        simp [prodLocal]
      · obtain ⟨j, hj⟩ : ∃ j, i = j + 1 := ⟨i - 1, by omega⟩
        subst hj
        rcases hcurr with h0 | hc
        · omega
        · simp only [Nat.add_sub_cancel] at hc
          rw [if_neg (Nat.succ_ne_zero j), hc]
          rfl
    simp only [Kernel_Set_ND_Sizes_loop]
    rw [hcurr1, if_pos (hprod i h1)]
    by_cases hEq : i = iFail
    · subst hEq
      rw [if_neg hl, if_neg hg]
      exact ⟨_, rfl, rfl⟩
    · have hlt : i < iFail := lt_of_le_of_ne h1 hEq
      obtain ⟨hl0, hgl0⟩ := hpre i hlt
      rw [if_neg hl0, if_pos hgl0]
      exact ih (i + 1) (prodLocal l i) _ (by omega) (by omega)
        (Or.inr (by simp))

/-- C2 counterexample: with stored geometry gEx = (3, [8,8,8], [2,2,2]), the
failing call SetNDSizes(1, [5,...], [3,...]) returns
GLOBAL_NOT_MULTIPLE_TO_LOCAL as the claim says, but the stored geometry is
altered: the new dimensionality 1 replaces 3 and Local_Work_Size[0] becomes
3, refuting the no-alteration part of the claim. -/
theorem claim_C2_counterexample :
    Kernel_Set_ND_Sizes gEx 1 (some (fun _ => 5)) (some (fun _ => 3)) CL_SUCCESS
        1024 =
      some (GLOBAL_NOT_MULTIPLE_TO_LOCAL,
        { Dimensionality := 1
          Global_Work_Size := [8, 8, 8]
          Local_Work_Size := [3, 2, 2] }) ∧
    ({ Dimensionality := 1
       Global_Work_Size := [8, 8, 8]
       Local_Work_Size := [3, 2, 2] } : KernelGeom) ≠ gEx := by
  decide

/-- C2 amended: when SetNDSizes is called with a valid dimensionality and
local sizes whose first failing dimension iFail has a non-zero local size
that does not divide the global size (all earlier dimensions passing their
checks), the call fails with GLOBAL_NOT_MULTIPLE_TO_LOCAL — but the stored
geometry is not left untouched: the requested dimensionality is stored (and
the sizes of the already-validated dimensions are overwritten). -/
theorem claim_C2 (g : KernelGeom) (dim : Nat) (global l : Nat → Nat)
    (maxWG iFail : Nat) (hdim : dim ≤ MAX_NUM_DIMENSIONS) (hFail : iFail < dim)
    (hpre : ∀ j, j < iFail → l j ≠ 0 ∧ global j % l j = 0)
    (hprod : ∀ j, j ≤ iFail → prodLocal l j ≤ maxWG)
    (hl : l iFail ≠ 0) (hg : global iFail % l iFail ≠ 0) :
    ∃ g2, Kernel_Set_ND_Sizes g dim (some global) (some l) CL_SUCCESS maxWG =
        some (GLOBAL_NOT_MULTIPLE_TO_LOCAL, g2) ∧
      g2.Dimensionality = dim := by
  simp only [Kernel_Set_ND_Sizes]
  rw [if_pos hdim, if_neg (by simp)]
  obtain ⟨g2, he, hd⟩ :=
    Kernel_Set_ND_Sizes_loop_fail global l maxWG iFail hpre hprod hl hg dim 0 0
      { g with Dimensionality := dim } (by omega) (by omega) (Or.inl rfl)
  exact ⟨g2, he, hd⟩

/-- Witness for C2 at the concrete failing call of the counterexample. -/
theorem claim_C2_witness :
    ∃ g2, Kernel_Set_ND_Sizes gEx 1 (some (fun _ => 5)) (some (fun _ => 3))
        CL_SUCCESS 1024 = some (GLOBAL_NOT_MULTIPLE_TO_LOCAL, g2) ∧
      g2.Dimensionality = 1 :=
  claim_C2 gEx 1 (fun _ => 5) (fun _ => 3) 1024 0 (by decide) (by decide)
    (fun j hj => absurd hj (by omega))
    (fun j hj => by
      have hj0 : j = 0 := Nat.le_zero.mp hj
      subst hj0
      decide)
    (by decide) (by decide)

/-- C7 counterexample: requested dimensionality 0 lies outside {1,2,3}, yet
the call succeeds (the source only checks dimensionality <= 3) and stores
Dimensionality 0, refuting the claim as stated. -/
theorem claim_C7_counterexample :
    Kernel_Set_ND_Sizes gEx 0 (some (fun _ => 1)) none CL_SUCCESS 16 =
      some (CL_SUCCESS, { gEx with Dimensionality := 0 }) ∧
    CL_SUCCESS ≠ INVALID_ND_DIMENSIONALITY := by
  decide

/-- C7 amended: a call whose requested dimensionality exceeds
MAX_NUM_DIMENSIONS = 3 (with a non-null global size array) fails with
INVALID_ND_DIMENSIONALITY and stores no geometry; and after every call that
returns CL_SUCCESS the stored Dimensionality is at most 3 — it equals the
requested value, which may also be 0, so membership in {1,2,3} does not
hold. -/
theorem claim_C7 :
    (∀ (g : KernelGeom) (dim : Nat) (global : Nat → Nat)
        (localWG : Option (Nat → Nat)) (wgRet : RetCode) (maxWG : Nat),
      MAX_NUM_DIMENSIONS < dim →
      Kernel_Set_ND_Sizes g dim (some global) localWG wgRet maxWG =
        some (INVALID_ND_DIMENSIONALITY, g)) ∧
    (∀ (g : KernelGeom) (dim : Nat) (global? localWG : Option (Nat → Nat))
        (wgRet : RetCode) (maxWG : Nat) (g2 : KernelGeom),
      Kernel_Set_ND_Sizes g dim global? localWG wgRet maxWG =
        some (CL_SUCCESS, g2) →
      g2.Dimensionality ≤ MAX_NUM_DIMENSIONS) := by
  constructor
  · intro g dim global localWG wgRet maxWG hdim
    simp only [Kernel_Set_ND_Sizes]
    rw [if_neg (by omega)]
  · intro g dim global? localWG wgRet maxWG g2 h
    cases global? with
    | none =>
      simp only [Kernel_Set_ND_Sizes, Option.some.injEq, Prod.mk.injEq] at h
      exact absurd h.1 (by decide)
    | some global =>
      simp only [Kernel_Set_ND_Sizes] at h
      by_cases hdim : dim ≤ MAX_NUM_DIMENSIONS
      · rw [if_pos hdim] at h
        by_cases hw : wgRet ≠ CL_SUCCESS
        · rw [if_pos hw] at h
          simp only [Option.some.injEq, Prod.mk.injEq] at h
          exact absurd h.1 hw
        · rw [if_neg hw] at h
          have hd := Kernel_Set_ND_Sizes_loop_dim global localWG maxWG dim 0 0
            { g with Dimensionality := dim } CL_SUCCESS g2 h
          exact le_of_eq_of_le hd hdim
      · rw [if_neg hdim] at h
        simp only [Option.some.injEq, Prod.mk.injEq] at h
        exact absurd h.1 (by decide)

/-- Witness for C7: dimensionality 4 is rejected with
INVALID_ND_DIMENSIONALITY and unchanged geometry, and the successful
dimensionality-0 call of the counterexample yields a stored Dimensionality
within the bound. -/
theorem claim_C7_witness :
    Kernel_Set_ND_Sizes gEx 4 (some (fun _ => 1)) none CL_SUCCESS 16 =
      some (INVALID_ND_DIMENSIONALITY, gEx) ∧
    ({ gEx with Dimensionality := 0 } : KernelGeom).Dimensionality ≤
      MAX_NUM_DIMENSIONS :=
  ⟨claim_C7.1 gEx 4 (fun _ => 1) none CL_SUCCESS 16 (by decide),
    claim_C7.2 gEx 0 (some (fun _ => 1)) none CL_SUCCESS 16
      { gEx with Dimensionality := 0 } (by decide)⟩

/-- C10: the claim says the divisibility check is evaluated only when the
divisor local_wg_size[i] is non-zero, so that zero entries (meaning no local
grouping for that dimension) are safe.  The code instead evaluates
global_wg_size[i] % local_wg_size[i] whenever the local array pointer is
non-null: SetNDSizes(1, [1024], [0]) computes 1024 % 0, a modulo by zero —
undefined behaviour, modelled as the result none.  The claim states the
intended behaviour and the code is wrong. -/
theorem claim_C10 :
    Kernel_Set_ND_Sizes gEx 1 (some (fun _ => 1024)) (some (fun _ => 0))
      CL_SUCCESS 1024 = none := by
  decide

/-- When every one of the first rem argument bindings from index i succeeds,
the binding loop of Kernel_Launch reports CL_SUCCESS. -/
theorem Kernel_Launch_bind_success (setArgRet : Nat → RetCode) :
    ∀ rem i, (∀ j, i ≤ j → j < i + rem → setArgRet j = CL_SUCCESS) →
      (Kernel_Launch_bind setArgRet rem i).1 = CL_SUCCESS := by
  intro rem
  induction rem with
  | zero => intro i _; rfl
  | succ rem ih =>
    intro i h
    have h0 : setArgRet i = CL_SUCCESS := h i le_rfl (by omega)
    simp only [Kernel_Launch_bind, h0, ne_eq, not_true_eq_false, if_false,
      ite_false]
    exact ih (i + 1) (fun j h1 h2 => h j (by omega) (by omega))

/-- C8: a dispatch with a caller-supplied external event pointer succeeds by
writing the completion event into the external variable, setting external
priority and recording the pointer, so that CheckStatus afterwards queries
that external event; a dispatch with no external pointer writes the internal
event slot and sets internal priority, so CheckStatus queries the internal
event; CheckStatus always issues exactly one clGetEventInfo query and no
blocking call; and Launch with all argument bindings succeeding dispatches
exactly as NDRange does, with the binding trace prepended. -/
theorem claim_C8 (k : KernelState) (env : Nat → Nat) (newEvt : Nat)
    (runTime : Int) (tm : TIME_STUDY_MODE) (queryRet : RetCode)
    (statusVal : Int) :
    (∀ addr,
      (Kernel_ND_Range k env (some addr) newEvt CL_SUCCESS runTime tm).ret =
        CL_SUCCESS ∧
      (Kernel_ND_Range k env (some addr) newEvt CL_SUCCESS runTime
        tm).kernel.evt_check_priority = true ∧
      (Kernel_ND_Range k env (some addr) newEvt CL_SUCCESS runTime
        tm).kernel.p_external_event = some addr ∧
      (Kernel_ND_Range k env (some addr) newEvt CL_SUCCESS runTime tm).env addr =
        newEvt ∧
      (∃ k3, Kernel_Check_Status
          (some (Kernel_ND_Range k env (some addr) newEvt CL_SUCCESS runTime
            tm).kernel)
          ((Kernel_ND_Range k env (some addr) newEvt CL_SUCCESS runTime tm).env)
          queryRet statusVal =
        some ⟨queryRet, some k3, [HostOp.getEventInfo newEvt]⟩)) ∧
    ((Kernel_ND_Range k env none newEvt CL_SUCCESS runTime tm).ret =
        CL_SUCCESS ∧
     (Kernel_ND_Range k env none newEvt CL_SUCCESS runTime
       tm).kernel.evt_check_priority = false ∧
     (Kernel_ND_Range k env none newEvt CL_SUCCESS runTime
       tm).kernel.internal_event = newEvt ∧
     (Kernel_ND_Range k env none newEvt CL_SUCCESS runTime tm).env = env ∧
     (∃ k3, Kernel_Check_Status
         (some (Kernel_ND_Range k env none newEvt CL_SUCCESS runTime tm).kernel)
         env queryRet statusVal =
       some ⟨queryRet, some k3, [HostOp.getEventInfo newEvt]⟩)) ∧
    (∀ (k2 : KernelState) (env2 : Nat → Nat) (q : RetCode) (s : Int)
        (out : CheckOutcome),
      Kernel_Check_Status (some k2) env2 q s = some out →
      ∃ ev, out.ops = [HostOp.getEventInfo ev]) ∧
    (∀ (setArgRet : Nat → RetCode) (gevt : Option Nat) (enqRet : RetCode),
      (∀ j, j < k.num_args → setArgRet j = CL_SUCCESS) →
      Kernel_Launch (some k) env gevt setArgRet newEvt enqRet runTime tm =
        ⟨(Kernel_ND_Range k env gevt newEvt enqRet runTime tm).ret,
         some (Kernel_ND_Range k env gevt newEvt enqRet runTime tm).kernel,
         (Kernel_ND_Range k env gevt newEvt enqRet runTime tm).env,
         (Kernel_Launch_bind setArgRet k.num_args 0).2 ++
           (Kernel_ND_Range k env gevt newEvt enqRet runTime tm).ops⟩) := by
  refine ⟨fun addr => ?_, ?_, fun k2 env2 q s out hout => ?_,
    fun setArgRet gevt enqRet hall => ?_⟩
  · cases tm <;>
      simp [Kernel_ND_Range, Kernel_Check_Status, CL_SUCCESS,
        Function.update_same]
  · cases tm <;>
      simp [Kernel_ND_Range, Kernel_Check_Status, CL_SUCCESS]
  · cases hb : k2.evt_check_priority with
    | false =>
      simp only [Kernel_Check_Status, hb, if_false, Bool.false_eq_true,
        Option.some.injEq] at hout
      exact ⟨k2.internal_event, by rw [← hout]⟩
    | true =>
      cases hp : k2.p_external_event with
      | none =>
        simp only [Kernel_Check_Status, hb, hp, if_true] at hout
        exact Option.noConfusion hout
      | some addr =>
        simp only [Kernel_Check_Status, hb, hp, if_true,
          Option.some.injEq] at hout
        exact ⟨env2 addr, by rw [← hout]⟩
  · have hb := Kernel_Launch_bind_success setArgRet k.num_args 0
      (fun j h1 h2 => hall j (by omega))
    simp only [Kernel_Launch, hb, ne_eq, not_true_eq_false, if_false, ite_false]

/-- Witness for C8 at the concrete kernel kEx: an external dispatch to
address 5 records event 42 there with external priority, and a Launch with
two successful bindings equals the corresponding NDRange dispatch with the
binding trace prepended. -/
theorem claim_C8_witness :
    (Kernel_ND_Range kEx (fun _ => 0) (some 5) 42 CL_SUCCESS 0
      TIME_STUDY_MODE.DONT_MEASURE).kernel.evt_check_priority = true ∧
    (Kernel_ND_Range kEx (fun _ => 0) (some 5) 42 CL_SUCCESS 0
      TIME_STUDY_MODE.DONT_MEASURE).kernel.p_external_event = some 5 ∧
    (Kernel_ND_Range kEx (fun _ => 0) (some 5) 42 CL_SUCCESS 0
      TIME_STUDY_MODE.DONT_MEASURE).env 5 = 42 ∧
    Kernel_Launch (some kEx) (fun _ => 0) none (fun _ => CL_SUCCESS) 42
        CL_SUCCESS 0 TIME_STUDY_MODE.DONT_MEASURE =
      ⟨(Kernel_ND_Range kEx (fun _ => 0) none 42 CL_SUCCESS 0
          TIME_STUDY_MODE.DONT_MEASURE).ret,
       some (Kernel_ND_Range kEx (fun _ => 0) none 42 CL_SUCCESS 0
          TIME_STUDY_MODE.DONT_MEASURE).kernel,
       (Kernel_ND_Range kEx (fun _ => 0) none 42 CL_SUCCESS 0
          TIME_STUDY_MODE.DONT_MEASURE).env,
       (Kernel_Launch_bind (fun _ => CL_SUCCESS) kEx.num_args 0).2 ++
         (Kernel_ND_Range kEx (fun _ => 0) none 42 CL_SUCCESS 0
          TIME_STUDY_MODE.DONT_MEASURE).ops⟩ :=
  ⟨((claim_C8 kEx (fun _ => 0) 42 0 TIME_STUDY_MODE.DONT_MEASURE CL_SUCCESS
      0).1 5).2.1,
   ((claim_C8 kEx (fun _ => 0) 42 0 TIME_STUDY_MODE.DONT_MEASURE CL_SUCCESS
      0).1 5).2.2.1,
   ((claim_C8 kEx (fun _ => 0) 42 0 TIME_STUDY_MODE.DONT_MEASURE CL_SUCCESS
      0).1 5).2.2.2.1,
   (claim_C8 kEx (fun _ => 0) 42 0 TIME_STUDY_MODE.DONT_MEASURE CL_SUCCESS
      0).2.2.2 (fun _ => CL_SUCCESS) none CL_SUCCESS (fun _ _ => rfl)⟩

end SCOW
